import Mathlib

/-!
Shallow embedding of the browser-driven login/navigation driver of
`rust-jsm-web-form` (files `src/web/login.rs`, `src/web/client.rs`,
`src/web/step.rs`), together with theorems checking the natural-language
specification against it.

URLs and other strings are modelled as `List Char`.  Rust's
`str::contains(pat)` is substring containment, `str::starts_with` is
prefix testing; both are modelled by executable boolean functions below.
Time is modelled in whole poll periods: the 1000 ms sleep at the top of
each loop iteration advances the clock by one unit, and every other
operation is instantaneous.  `Instant::now()` is the current tick count.
-/

/-- Substring search on character lists: `containsSeq needle hay` is true
iff `needle` occurs contiguously in `hay`.  Models Rust `str::contains`
with a string pattern. -/
def containsSeq (needle : List Char) : List Char → Bool
  | [] => needle.isEmpty
  | c :: rest => needle.isPrefixOf (c :: rest) || containsSeq needle rest

/-- `src/web/login.rs`, `is_on_ticket_page`:
`url.contains(&format!("/browse/<ticket_id>", ticket_id))`. -/
def is_on_ticket_page (url ticket_id : List Char) : Bool :=
  containsSeq ("/browse/".toList ++ ticket_id) url

/-- Host prefix tested by `new_url.starts_with("https://id.atlassian.com/")`. -/
def atlassianHost : List Char := "https://id.atlassian.com/".toList

/-- Host prefix tested by `new_url.starts_with("https://login.microsoftonline.com/")`. -/
def microsoftHost : List Char := "https://login.microsoftonline.com/".toList

/-- The branch of `wait_for_ticket_page` a (non-target) URL selects.  This is
the `if`/`else if` chain at `login.rs` lines 52, 84 and 116, in source order. -/
inductive UrlClass where
  | atlassianLogin
  | atlassianAccountSelect
  | microsoftLogin
  | other
deriving DecidableEq, Repr

/-- URL classification as performed by the `if let Some(user)` body of
`wait_for_ticket_page`: Atlassian host plus `"login"` fragment, then
Atlassian host plus `"join/user-access"` fragment, then Microsoft host,
else no login branch. -/
def classifyUrl (url : List Char) : UrlClass :=
  if atlassianHost.isPrefixOf url && containsSeq "login".toList url then
    .atlassianLogin
  else if atlassianHost.isPrefixOf url && containsSeq "join/user-access".toList url then
    .atlassianAccountSelect
  else if microsoftHost.isPrefixOf url then
    .microsoftLogin
  else
    .other

/-- Which credential injector was invoked (`try_fill_atlassian_username`,
`try_click_account_continue`, `try_fill_microsoft_username`). -/
inductive InjKind where
  | atlassian
  | account
  | microsoft
deriving DecidableEq, Repr

/-- Outcome of a credential-injector call (`Result<bool>` in the source):
`ok b` is `Ok(b)`, `err` is `Err(_)`. -/
inductive InjResult where
  | ok (b : Bool)
  | err
deriving DecidableEq, Repr

/-- One poll tick of the scripted environment: the URL `tab.get_url()`
returns after the sleep of that iteration, and the outcome any injector
called on that tick would produce. -/
structure Tick where
  url : List Char
  inj : InjResult
deriving DecidableEq, Repr

/-- Observable actions of the driver, tagged with the tick count at which
they happen. -/
inductive Event where
  | slept (t : Nat)
  | urlRead (t : Nat) (url : List Char)
  | invoked (k : InjKind) (t : Nat)
  | paused
deriving DecidableEq, Repr

/-- The mutable locals of `wait_for_ticket_page` (`login.rs` lines 23-33). -/
structure LoopState where
  start_time : Nat
  current_url : List Char
  atlassian_username_done : Bool
  account_continue_done : Bool
  microsoft_username_done : Bool
  atlassian_prompted : Bool
  account_prompted : Bool
  microsoft_prompted : Bool
  microsoft_inspect_prompted : Bool
deriving DecidableEq, Repr

/-- State at loop entry: timer started now, `current_url` read once before
the loop, every flag `false`. -/
def LoopState.init (initialUrl : List Char) : LoopState :=
  ⟨0, initialUrl, false, false, false, false, false, false, false⟩

/-- Call-site parameters of `wait_for_ticket_page`. -/
structure Cfg where
  ticket_id : List Char
  timeout : Nat
  username : Option (List Char)
  stepEnabled : Bool

/-- The Atlassian-login branch (`login.rs` lines 52-83), entered when the
URL classifies as `atlassianLogin`.  Returns
(`continue` executed?, new state, events). -/
def atlassianLoginStep (stepEnabled : Bool) (now : Nat) (s : LoopState)
    (inj : InjResult) : Bool × LoopState × List Event :=
  if s.atlassian_username_done then (false, s, [])
  else
    let (s₁, evs₁) :=
      if stepEnabled && !s.atlassian_prompted then
        ({ s with atlassian_prompted := true }, [Event.paused])
      else (s, ([] : List Event))
    match inj with
    | .ok true =>
        let s₂ := { s₁ with atlassian_username_done := true }
        if stepEnabled then
          (true, { s₂ with atlassian_prompted := false },
            evs₁ ++ [Event.invoked .atlassian now, Event.paused])
        else (true, s₂, evs₁ ++ [Event.invoked .atlassian now])
    | .ok false =>
        let s₂ := if stepEnabled then { s₁ with atlassian_prompted := false } else s₁
        (false, s₂, evs₁ ++ [Event.invoked .atlassian now])
    | .err =>
        let s₂ := { s₁ with atlassian_username_done := true }
        if stepEnabled then
          (false, s₂, evs₁ ++ [Event.invoked .atlassian now, Event.paused])
        else (false, s₂, evs₁ ++ [Event.invoked .atlassian now])

/-- The Atlassian account-chooser branch (`login.rs` lines 84-115). -/
def accountSelectStep (stepEnabled : Bool) (now : Nat) (s : LoopState)
    (inj : InjResult) : Bool × LoopState × List Event :=
  if s.account_continue_done then (false, s, [])
  else
    let (s₁, evs₁) :=
      if stepEnabled && !s.account_prompted then
        ({ s with account_prompted := true }, [Event.paused])
      else (s, ([] : List Event))
    match inj with
    | .ok true =>
        let s₂ := { s₁ with account_continue_done := true }
        if stepEnabled then
          (true, { s₂ with account_prompted := false },
            evs₁ ++ [Event.invoked .account now, Event.paused])
        else (true, s₂, evs₁ ++ [Event.invoked .account now])
    | .ok false =>
        let s₂ := if stepEnabled then { s₁ with account_prompted := false } else s₁
        (false, s₂, evs₁ ++ [Event.invoked .account now])
    | .err =>
        let s₂ := { s₁ with account_continue_done := true }
        if stepEnabled then
          (false, s₂, evs₁ ++ [Event.invoked .account now, Event.paused])
        else (false, s₂, evs₁ ++ [Event.invoked .account now])

/-- The Microsoft branch (`login.rs` lines 116-150): the username
sub-branch when `microsoft_username_done` is unset, else at most a
one-time interactive inspection prompt. -/
def microsoftStep (stepEnabled : Bool) (now : Nat) (s : LoopState)
    (inj : InjResult) : Bool × LoopState × List Event :=
  if !s.microsoft_username_done then
    let (s₁, evs₁) :=
      if stepEnabled && !s.microsoft_prompted then
        ({ s with microsoft_prompted := true }, [Event.paused])
      else (s, ([] : List Event))
    match inj with
    | .ok true =>
        let s₂ := { s₁ with microsoft_username_done := true }
        if stepEnabled then
          (true, { s₂ with microsoft_prompted := false },
            evs₁ ++ [Event.invoked .microsoft now, Event.paused])
        else (true, s₂, evs₁ ++ [Event.invoked .microsoft now])
    | .ok false =>
        let s₂ := if stepEnabled then { s₁ with microsoft_prompted := false } else s₁
        (false, s₂, evs₁ ++ [Event.invoked .microsoft now])
    | .err =>
        let s₂ := { s₁ with microsoft_username_done := true }
        if stepEnabled then
          (false, s₂, evs₁ ++ [Event.invoked .microsoft now, Event.paused])
        else (false, s₂, evs₁ ++ [Event.invoked .microsoft now])
  else if stepEnabled && !s.microsoft_inspect_prompted then
    (false, { s with microsoft_inspect_prompted := true }, [Event.paused])
  else (false, s, [])

/-- The whole `if let Some(user) = username` body (`login.rs` lines 51-152). -/
def injectionPhase (cfg : Cfg) (now : Nat) (s : LoopState) (url : List Char)
    (inj : InjResult) : Bool × LoopState × List Event :=
  match cfg.username with
  | none => (false, s, [])
  | some _ =>
    match classifyUrl url with
    | .atlassianLogin => atlassianLoginStep cfg.stepEnabled now s inj
    | .atlassianAccountSelect => accountSelectStep cfg.stepEnabled now s inj
    | .microsoftLogin => microsoftStep cfg.stepEnabled now s inj
    | .other => (false, s, [])

/-- The URL-change check at the bottom of the loop (`login.rs` lines
154-162): on a changed URL, record it, restart the inactivity timer, and
clear the four prompt-shown flags.  The three done flags are untouched. -/
def urlChangeCheck (now : Nat) (s : LoopState) (url : List Char) : LoopState :=
  if url = s.current_url then s
  else
    { s with
      current_url := url
      start_time := now
      atlassian_prompted := false
      account_prompted := false
      microsoft_prompted := false
      microsoft_inspect_prompted := false }

/-- One iteration of the `while` body after the sleep and URL read:
target check, injection dispatch, then — unless the iteration ended in
`return` or `continue` — the URL-change check.  `none` means the
iteration executed `return Ok(true)`. -/
def tickStep (cfg : Cfg) (now : Nat) (s : LoopState) (t : Tick) :
    Option LoopState × List Event :=
  if is_on_ticket_page t.url cfg.ticket_id then
    (none, if cfg.stepEnabled then [Event.paused] else [])
  else
    let r := injectionPhase cfg now s t.url t.inj
    if r.1 then (some r.2.1, r.2.2)
    else (some (urlChangeCheck now r.2.1 t.url), r.2.2)

/-- Result of a run of the polling loop: `some true` is `Ok(true)` (target
page reached), `some false` is `Ok(false)` (inactivity timeout), `none`
means the tick script ran out while the loop would have kept polling. -/
structure RunOut where
  result : Option Bool
  final : LoopState
  events : List Event
deriving DecidableEq, Repr

/-- The `while start_time.elapsed() < timeout` loop (`login.rs` lines
35-163).  `now` is the tick count at the top of the loop; each iteration
sleeps one poll period, reads the scripted URL, and runs `tickStep`. -/
def runLoop (cfg : Cfg) : List Tick → Nat → LoopState → RunOut
  | [], now, s =>
      if now - s.start_time < cfg.timeout then ⟨none, s, []⟩
      else ⟨some false, s, []⟩
  | t :: rest, now, s =>
      if now - s.start_time < cfg.timeout then
        match tickStep cfg (now + 1) s t with
        | (none, evs) =>
            ⟨some true, s,
              Event.slept (now + 1) :: Event.urlRead (now + 1) t.url :: evs⟩
        | (some s₂, evs) =>
            ⟨(runLoop cfg rest (now + 1) s₂).result,
              (runLoop cfg rest (now + 1) s₂).final,
              Event.slept (now + 1) :: Event.urlRead (now + 1) t.url ::
                (evs ++ (runLoop cfg rest (now + 1) s₂).events)⟩
      else ⟨some false, s, []⟩

/-- `wait_for_ticket_page` on a scripted sequence of URL observations:
read the initial URL, then run the polling loop from tick 0. -/
def wait_for_ticket_page (cfg : Cfg) (initialUrl : List Char)
    (ticks : List Tick) : RunOut :=
  runLoop cfg ticks 0 (LoopState.init initialUrl)

/-- The injector-invocation events of a trace (each invocation evaluates
exactly one injection script in the browser). -/
def invokedEvents (evs : List Event) : List Event :=
  evs.filter fun e =>
    match e with
    | .invoked _ _ => true
    | _ => false

/-- A script of URL observations on which the polling loop must reach the
target: at each point the timer has not yet expired, and either the
current URL is the ticket page or the remaining script (with the recorded
URL and the timer updated exactly as the loop updates them on a
changed/unchanged URL) is again such a script.  This captures "every
individual URL change happens within the inactivity timeout, and the
target is eventually observed within the timeout of the last change". -/
def goodScript (cfg : Cfg) : List Char → Nat → Nat → List Tick → Bool
  | _, _, _, [] => false
  | recorded, now, start, t :: rest =>
    decide (now - start < cfg.timeout) &&
    (is_on_ticket_page t.url cfg.ticket_id ||
      (if t.url = recorded then goodScript cfg recorded (now + 1) start rest
       else goodScript cfg t.url (now + 1) (now + 1) rest))

/-! ### `src/web/step.rs`: the StepController -/

/-- `usize` modulus: `AtomicUsize::fetch_add` wraps modulo `2 ^ 64`, and so
does the `+ 1` applied to its result in release builds. -/
def U64 : Nat := 2 ^ 64

/-- `StepController` (`step.rs` lines 6-11): `enabled`, the atomic
`counter`, and the `skip_steps` set (modelled as a list with membership). -/
structure StepController where
  enabled : Bool
  counter : Nat
  skip_steps : List Nat
deriving DecidableEq, Repr

/-- `StepController::new` (`step.rs` lines 14-20): counter starts at 0. -/
def StepController.new (enabled : Bool) (skip_steps : List Nat) : StepController :=
  ⟨enabled, 0, skip_steps⟩

/-- What a `pause` call does after computing its step number: nothing
visible when disabled, a skip notice for a skipped number, otherwise block
until the operator presses Enter. -/
inductive PauseAction where
  | silent
  | skipNotice
  | blockForEnter
deriving DecidableEq, Repr

/-- `StepController::pause` (`step.rs` lines 26-49).  The step number is
`self.counter.fetch_add(1, SeqCst) + 1`, computed before the `enabled`
check; both the stored counter and the number wrap modulo `2 ^ 64`.
Returns (assigned step number, visible action, new controller).  The
`Result` value is `Ok(())` on every path in which reading the
acknowledgment from stdin succeeds, so it is not modelled. -/
def StepController.pause (c : StepController) : Nat × PauseAction × StepController :=
  let n := (c.counter + 1) % U64
  let c' := { c with counter := n }
  if c.enabled = false then (n, .silent, c')
  else if n ∈ c.skip_steps then (n, .skipNotice, c')
  else (n, .blockForEnter, c')

/-- The controller after `m` successive `pause` calls. -/
def pausedTimes (c : StepController) : Nat → StepController
  | 0 => c
  | m + 1 => (pausedTimes c m).pause.2.2

/-- The step number assigned to the `k`-th `pause` call (1-indexed) on a
controller that starts at `c`. -/
def nthPauseNumber (c : StepController) (k : Nat) : Nat :=
  (pausedTimes c (k - 1)).pause.1

/-! ### `src/web/client.rs`: dropdown interaction and the ticket-page gate -/

/-- Scripted browser answers for one `select_dropdown_option` call: the
status string each of the two evaluated scripts returns (already
defaulted to `""` when the evaluation produced no string value). -/
structure DropdownResp where
  openStatus : List Char
  selectStatus : List Char
deriving DecidableEq, Repr

/-- Browser interactions `select_dropdown_option` performs, in order. -/
inductive DropdownEvent where
  | evalOpen
  | sleep750
  | evalSelect
deriving DecidableEq, Repr

/-- Rust `Debug` rendering of the `&[&str]` keyword list, as interpolated
by `{:?}` in the error messages: `["kw1", "kw2"]`. -/
def formatKeywords (kws : List (List Char)) : List Char :=
  "[".toList ++
    List.intercalate ", ".toList (kws.map fun k => "\"".toList ++ k ++ "\"".toList) ++
  "]".toList

/-- 0x27, the single-quote/apostrophe character appearing in several
source message literals. -/
def squote : List Char := [Char.ofNat 39]

/-- Error built at `client.rs` lines 215-219 when the open-dropdown script
does not answer "clicked". -/
def openDropdownError (kws : List (List Char)) (status : List Char) : List Char :=
  "Could not locate or open dropdown for field keywords ".toList ++
    formatKeywords kws ++ " (status: ".toList ++ status ++ ")".toList

/-- Error built at `client.rs` lines 256-263 when the option-selection
script does not answer "selected". -/
def selectOptionError (kws : List (List Char)) (desired status : List Char) : List Char :=
  "Could not select value ".toList ++ squote ++ desired ++ squote ++
    " for field keywords ".toList ++ formatKeywords kws ++
    " (status: ".toList ++ status ++ ")".toList

/-- `select_dropdown_option` (`client.rs` lines 172-266): evaluate the
open-dropdown script; unless it answers "clicked", fail; sleep 750 ms;
evaluate the option-selection script; unless it answers "selected", fail;
otherwise succeed.  No validation of `desired_value` happens anywhere.
Returns the call result and the browser interactions performed. -/
def select_dropdown_option (field_keywords : List (List Char))
    (desired_value : List Char) (resp : DropdownResp) :
    Except (List Char) Unit × List DropdownEvent :=
  if resp.openStatus ≠ "clicked".toList then
    (.error (openDropdownError field_keywords resp.openStatus), [.evalOpen])
  else if resp.selectStatus ≠ "selected".toList then
    (.error (selectOptionError field_keywords desired_value resp.selectStatus),
      [.evalOpen, .sleep750, .evalSelect])
  else
    (.ok (), [.evalOpen, .sleep750, .evalSelect])

/-- Error message built by `complete_risk_assessment` (`client.rs` lines
118-124) when the ticket page could not be verified. -/
def ticketPageError (ticket_id current_url : List Char) : List Char :=
  "Could not verify we".toList ++ squote ++
    "re on the correct ticket page for ".toList ++ ticket_id ++
    ".\nCurrent URL: ".toList ++ current_url ++
    "\nThis may be due to a login page or other redirect.\nPlease try again after ensuring you".toList ++
    squote ++ "re logged in.".toList

/-- The branch of `complete_risk_assessment` on the boolean returned by
`wait_for_ticket_page` (`client.rs` lines 92-125): `true` proceeds to the
form phase, `false` becomes an error naming the ticket id and the URL the
tab currently shows. -/
def complete_risk_assessment_check (ticket_id : List Char) (is_on_correct_page : Bool)
    (current_url : List Char) : Except (List Char) Unit :=
  if is_on_correct_page then .ok ()
  else .error (ticketPageError ticket_id current_url)

/-- Rust `str::trim`: drop whitespace from both ends.  (Rust trims the
full Unicode White_Space class; on the ASCII whitespace relevant here the
two notions agree.) -/
def strTrim (s : List Char) : List Char :=
  ((s.dropWhile Char.isWhitespace).reverse.dropWhile Char.isWhitespace).reverse

/-- The `login_username` binding of `complete_risk_assessment`
(`client.rs` lines 75-82): trim the configured username and pass `None`
when the result is empty. -/
def login_username (configured : List Char) : Option (List Char) :=
  let trimmed := strTrim configured
  if trimmed.isEmpty then none else some trimmed

/-- `true` iff every done flag set in `s` is still set in the state a tick
produced (`none` is the successful `return`, which discards the state). -/
def doneFlagsPreserved (s : LoopState) (o : Option LoopState) : Bool :=
  match o with
  | none => true
  | some s₂ =>
      (!s.atlassian_username_done || s₂.atlassian_username_done) &&
      (!s.account_continue_done || s₂.account_continue_done) &&
      (!s.microsoft_username_done || s₂.microsoft_username_done)

/-! ### Sample inputs used by concrete runs -/

def atlLoginUrl : List Char := "https://id.atlassian.com/login".toList
def plainUrl : List Char := "https://acme.atlassian.net/queue".toList
def otherUrl : List Char := "https://acme.atlassian.net/projects".toList
def ticketUrl : List Char := "https://acme.atlassian.net/browse/T-1".toList
def msLoginUrl : List Char := "https://login.microsoftonline.com/common/login".toList
def msReprocessUrl : List Char := "https://login.microsoftonline.com/common/reprocess?ctx=1".toList

/-- A call configuration with a configured username and stepping off. -/
def cfgUser : Cfg := ⟨"T-1".toList, 10, some "alice@acme.com".toList, false⟩

/-- A call configuration with no username and stepping off. -/
def cfgNoUser : Cfg := ⟨"T-1".toList, 4, none, false⟩

/-- The scripted URL sequence A, A, A, B, B, B, target from the
specification: each repeat spans less than the 4-tick timeout of
`cfgNoUser`, but the whole script (7 ticks) exceeds it. -/
def c2script : List Tick :=
  [⟨plainUrl, .ok false⟩, ⟨plainUrl, .ok false⟩, ⟨plainUrl, .ok false⟩,
   ⟨otherUrl, .ok false⟩, ⟨otherUrl, .ok false⟩, ⟨otherUrl, .ok false⟩,
   ⟨ticketUrl, .ok false⟩]

/-! ## Theorems -/

theorem containsSeq_iff (needle hay : List Char) :
    containsSeq needle hay = true ↔ needle <:+: hay := by
  induction hay with
  | nil =>
      simp [containsSeq, List.isEmpty_iff]
  | cons c rest ih =>
      simp only [containsSeq, Bool.or_eq_true, List.isPrefixOf_iff_prefix, ih]
      exact (List.infix_cons_iff).symm

example : is_on_ticket_page ticketUrl "T-1".toList = true := by decide
example : is_on_ticket_page atlLoginUrl "T-1".toList = false := by decide

/-- Claim C6 (amended): `is_on_ticket_page url ticket_id` is true iff the
literal character sequence `/browse/` followed by `ticket_id` occurs
contiguously in `url`; in particular it is false exactly when that
sequence is absent.  (The original further said it is false whenever the
URL carries a different ticket id, which fails when the other id extends
the target id — see the counterexample.) -/
theorem is_on_ticket_page_iff_substring (url ticket_id : List Char) :
    is_on_ticket_page url ticket_id = true ↔
      ("/browse/".toList ++ ticket_id) <:+: url := by
  unfold is_on_ticket_page
  exact containsSeq_iff _ _

/-- Claim C6, counterexample: the URL of ticket `AB-12` contains a ticket
id different from `AB-1`, yet `is_on_ticket_page` answers true for
`AB-1`, because `/browse/AB-1` occurs inside `/browse/AB-12`. -/
theorem is_on_ticket_page_extension_counterexample :
    is_on_ticket_page "https://acme.atlassian.net/browse/AB-12".toList "AB-1".toList = true ∧
    containsSeq ("/browse/".toList ++ "AB-12".toList)
      "https://acme.atlassian.net/browse/AB-12".toList = true ∧
    "AB-12".toList ≠ "AB-1".toList := by
  decide

/-- Claim C3 (amended): `select_dropdown_option` does not special-case an
empty desired value: even with an empty value its first action is to
evaluate the open-dropdown script in the browser, and its result is
success or failure purely according to the two status strings the browser
answers. -/
theorem select_dropdown_option_empty_value_not_special_cased
    (field_keywords : List (List Char)) (resp : DropdownResp) :
    (select_dropdown_option field_keywords [] resp).2.head? = some .evalOpen ∧
    (select_dropdown_option field_keywords [] resp).2 ≠ [] ∧
    ((select_dropdown_option field_keywords [] resp).1 = .ok () ↔
      resp.openStatus = "clicked".toList ∧ resp.selectStatus = "selected".toList) := by
  unfold select_dropdown_option
  split_ifs with h1 h2 <;> simp_all

/-- Claim C3, counterexample: called with an empty desired value (and a
browser whose dropdown opens but offers no matching option),
`select_dropdown_option` evaluates both scripts — the error arrives only
after the browser interaction, not immediately before it. -/
theorem select_dropdown_option_empty_value_counterexample :
    (select_dropdown_option ["security controls impact".toList] []
        ⟨"clicked".toList, "option-not-found".toList⟩).2 =
      [.evalOpen, .sleep750, .evalSelect] ∧
    (select_dropdown_option ["security controls impact".toList] []
        ⟨"clicked".toList, "option-not-found".toList⟩).2 ≠ [] ∧
    (select_dropdown_option ["security controls impact".toList] []
        ⟨"clicked".toList, "option-not-found".toList⟩).1 =
      .error (selectOptionError ["security controls impact".toList] []
        "option-not-found".toList) := by
  refine ⟨rfl, by decide, rfl⟩

/-- Claim C8 (amended): URL classification does not sub-classify Microsoft
login states: every URL on the Microsoft identity host prefix — whatever
its path fragment, including the MFA reprocess redirect — selects the one
Microsoft branch.  There is no reprocess/MFA special case and no
fixed-duration pause; a static Microsoft URL counts toward the inactivity
timeout like any other static URL (see the counterexample). -/
theorem classifyUrl_microsoft_single_state (url : List Char)
    (hms : microsoftHost.isPrefixOf url = true)
    (hatl : atlassianHost.isPrefixOf url = false) :
    classifyUrl url = .microsoftLogin := by
  unfold classifyUrl
  simp [hms, hatl]

/-- Claim C8, witness: the MFA reprocess URL classifies as the single
Microsoft state. -/
theorem classifyUrl_microsoft_single_state_witness :
    classifyUrl msReprocessUrl = .microsoftLogin :=
  classifyUrl_microsoft_single_state msReprocessUrl (by decide) (by decide)

/-- Claim C8, counterexample: a Microsoft username-prompt URL and the MFA
reprocess URL are distinct and carry different path fragments, yet
classify identically; and a run that sits on the unchanged reprocess URL
(with the username step already succeeded) exhausts the inactivity
timeout and fails — the reprocess wait is not excluded from the
inactivity accounting. -/
theorem microsoft_reprocess_counterexample :
    classifyUrl msLoginUrl = classifyUrl msReprocessUrl ∧
    msLoginUrl ≠ msReprocessUrl ∧
    (wait_for_ticket_page ⟨"T-1".toList, 3, some "alice@acme.com".toList, false⟩
        msReprocessUrl (List.replicate 4 ⟨msReprocessUrl, .ok true⟩)).result =
      some false := by
  refine ⟨rfl, by decide, by decide⟩

theorem pause_counter (c : StepController) :
    c.pause.2.2 = { c with counter := (c.counter + 1) % U64 } := by
  unfold StepController.pause
  by_cases h : c.enabled = false <;>
    by_cases h2 : (c.counter + 1) % U64 ∈ c.skip_steps <;> simp [h, h2]

theorem pause_number (c : StepController) :
    c.pause.1 = (c.counter + 1) % U64 := by
  unfold StepController.pause
  by_cases h : c.enabled = false <;>
    by_cases h2 : (c.counter + 1) % U64 ∈ c.skip_steps <;> simp [h, h2]

theorem pausedTimes_counter (e : Bool) (sk : List Nat) (m : Nat) :
    (pausedTimes (StepController.new e sk) m).counter = m % U64 := by
  induction m with
  | zero => simp [pausedTimes, StepController.new]
  | succ m ih =>
      have h1 : (1 : Nat) % U64 = 1 := Nat.mod_eq_of_lt (by norm_num [U64])
      rw [pausedTimes, pause_counter]
      simp only [ih]
      rw [Nat.add_mod m 1 U64, h1]

theorem nthPauseNumber_closed (e : Bool) (sk : List Nat) (k : Nat) (hk : 1 ≤ k) :
    nthPauseNumber (StepController.new e sk) k = k % U64 := by
  unfold nthPauseNumber
  rw [pause_number, pausedTimes_counter]
  have h1 : (1 : Nat) % U64 = 1 := Nat.mod_eq_of_lt (by norm_num [U64])
  have h2 : k - 1 + 1 = k := Nat.succ_pred_eq_of_pos hk
  calc ((k - 1) % U64 + 1) % U64
      = ((k - 1) % U64 + 1 % U64) % U64 := by rw [h1]
    _ = (k - 1 + 1) % U64 := (Nat.add_mod (k - 1) 1 U64).symm
    _ = k % U64 := by rw [h2]

/-- Claim C9 (amended): for every sequence of fewer than `2 ^ 64` calls,
the `k`-th `pause` call is assigned checkpoint number `k`, the counter
after `k` calls is exactly `k` (each call increments it by one), the
numbering is independent of `enabled` and of the skip set, and distinct
calls in that range never observe duplicate numbers.  Beyond `usize`
range the atomic counter wraps modulo `2 ^ 64` and numbers repeat — see
the counterexample. -/
theorem stepController_sequential_numbering (e e₂ : Bool) (sk sk₂ : List Nat)
    (j k : Nat) (hk1 : 1 ≤ k) (hk2 : k < U64) (hj1 : 1 ≤ j) (hj2 : j < U64) :
    nthPauseNumber (StepController.new e sk) k = k ∧
    (pausedTimes (StepController.new e sk) k).counter = k ∧
    nthPauseNumber (StepController.new e sk) k =
      nthPauseNumber (StepController.new e₂ sk₂) k ∧
    (j ≠ k → nthPauseNumber (StepController.new e sk) j ≠
      nthPauseNumber (StepController.new e sk) k) := by
  have hnth : ∀ (b : Bool) (l : List Nat),
      nthPauseNumber (StepController.new b l) k = k := fun b l => by
    rw [nthPauseNumber_closed b l k hk1, Nat.mod_eq_of_lt hk2]
  have hj : nthPauseNumber (StepController.new e sk) j = j := by
    rw [nthPauseNumber_closed e sk j hj1, Nat.mod_eq_of_lt hj2]
  refine ⟨hnth e sk, ?_, (hnth e sk).trans (hnth e₂ sk₂).symm, ?_⟩
  · rw [pausedTimes_counter, Nat.mod_eq_of_lt hk2]
  · intro hne
    rw [hj, hnth e sk]
    exact hne

/-- Claim C9, witness: with stepping enabled and step 2 skipped, the third
`pause` call is numbered 3, the numbering matches a disabled controller,
and calls 2 and 3 get different numbers. -/
theorem stepController_sequential_numbering_witness :
    nthPauseNumber (StepController.new true [2]) 3 = 3 ∧
    (pausedTimes (StepController.new true [2]) 3).counter = 3 ∧
    nthPauseNumber (StepController.new true [2]) 3 =
      nthPauseNumber (StepController.new false []) 3 ∧
    (2 ≠ 3 → nthPauseNumber (StepController.new true [2]) 2 ≠
      nthPauseNumber (StepController.new true [2]) 3) :=
  stepController_sequential_numbering true false [2] [] 2 3
    (by norm_num) (by norm_num [U64]) (by norm_num) (by norm_num [U64])

/-- Claim C9, counterexample: the `usize` counter wraps, so call number
`2 ^ 64 + 1` is assigned checkpoint number 1 — a duplicate of the first
call — refuting "the k-th call is assigned checkpoint number k" and
"distinct calls never observe duplicate numbers" for unboundedly many
calls. -/
theorem stepController_wraparound_counterexample :
    nthPauseNumber (StepController.new true []) (U64 + 1) =
      nthPauseNumber (StepController.new true []) 1 ∧
    nthPauseNumber (StepController.new true []) (U64 + 1) = 1 ∧
    U64 + 1 ≠ 1 := by
  have h1 : nthPauseNumber (StepController.new true []) (U64 + 1) = 1 := by
    rw [nthPauseNumber_closed true [] (U64 + 1) (by norm_num), Nat.add_mod_left]
    exact Nat.mod_eq_of_lt (by norm_num [U64])
  have h2 : nthPauseNumber (StepController.new true []) 1 = 1 := by
    rw [nthPauseNumber_closed true [] 1 (le_refl 1)]
    exact Nat.mod_eq_of_lt (by norm_num [U64])
  exact ⟨h1.trans h2.symm, h1, by norm_num [U64]⟩

theorem atlassianLoginStep_props (e : Bool) (now : Nat) (s : LoopState)
    (inj : InjResult) :
    (s.atlassian_username_done = true → atlassianLoginStep e now s inj = (false, s, [])) ∧
    (atlassianLoginStep e now s inj).2.1.account_continue_done = s.account_continue_done ∧
    (atlassianLoginStep e now s inj).2.1.microsoft_username_done = s.microsoft_username_done ∧
    (atlassianLoginStep e now s inj).2.1.current_url = s.current_url ∧
    (atlassianLoginStep e now s inj).2.1.start_time = s.start_time ∧
    (∀ ev ∈ (atlassianLoginStep e now s inj).2.2,
      ev = Event.paused ∨ ev = Event.invoked .atlassian now) ∧
    (s.atlassian_username_done = false → inj = .ok true →
      (atlassianLoginStep e now s inj).1 = true ∧
      (atlassianLoginStep e now s inj).2.1.atlassian_username_done = true) ∧
    (s.atlassian_username_done = false → inj = .err →
      (atlassianLoginStep e now s inj).1 = false ∧
      (atlassianLoginStep e now s inj).2.1.atlassian_username_done = true) := by
  unfold atlassianLoginStep
  rcases inj with b | _
  · cases b <;> by_cases hd : s.atlassian_username_done <;>
      by_cases he : e <;> by_cases hp : s.atlassian_prompted <;>
      simp_all
  · by_cases hd : s.atlassian_username_done <;>
      by_cases he : e <;> by_cases hp : s.atlassian_prompted <;>
      simp_all

theorem accountSelectStep_props (e : Bool) (now : Nat) (s : LoopState)
    (inj : InjResult) :
    (s.account_continue_done = true → accountSelectStep e now s inj = (false, s, [])) ∧
    (accountSelectStep e now s inj).2.1.atlassian_username_done = s.atlassian_username_done ∧
    (accountSelectStep e now s inj).2.1.microsoft_username_done = s.microsoft_username_done ∧
    (accountSelectStep e now s inj).2.1.current_url = s.current_url ∧
    (accountSelectStep e now s inj).2.1.start_time = s.start_time ∧
    (∀ ev ∈ (accountSelectStep e now s inj).2.2,
      ev = Event.paused ∨ ev = Event.invoked .account now) ∧
    (s.account_continue_done = false → inj = .ok true →
      (accountSelectStep e now s inj).1 = true ∧
      (accountSelectStep e now s inj).2.1.account_continue_done = true) ∧
    (s.account_continue_done = false → inj = .err →
      (accountSelectStep e now s inj).1 = false ∧
      (accountSelectStep e now s inj).2.1.account_continue_done = true) := by
  unfold accountSelectStep
  rcases inj with b | _
  · cases b <;> by_cases hd : s.account_continue_done <;>
      by_cases he : e <;> by_cases hp : s.account_prompted <;>
      simp_all
  · by_cases hd : s.account_continue_done <;>
      by_cases he : e <;> by_cases hp : s.account_prompted <;>
      simp_all

theorem microsoftStep_props (e : Bool) (now : Nat) (s : LoopState)
    (inj : InjResult) :
    (s.microsoft_username_done = true → (microsoftStep e now s inj).1 = false) ∧
    (microsoftStep e now s inj).2.1.atlassian_username_done = s.atlassian_username_done ∧
    (microsoftStep e now s inj).2.1.account_continue_done = s.account_continue_done ∧
    (s.microsoft_username_done = true →
      (microsoftStep e now s inj).2.1.microsoft_username_done = true) ∧
    (microsoftStep e now s inj).2.1.current_url = s.current_url ∧
    (microsoftStep e now s inj).2.1.start_time = s.start_time ∧
    (∀ ev ∈ (microsoftStep e now s inj).2.2,
      ev = Event.paused ∨ ev = Event.invoked .microsoft now) ∧
    (s.microsoft_username_done = true →
      ∀ ev ∈ (microsoftStep e now s inj).2.2, ev = Event.paused) ∧
    (s.microsoft_username_done = false → inj = .ok true →
      (microsoftStep e now s inj).1 = true ∧
      (microsoftStep e now s inj).2.1.microsoft_username_done = true) ∧
    (s.microsoft_username_done = false → inj = .err →
      (microsoftStep e now s inj).1 = false ∧
      (microsoftStep e now s inj).2.1.microsoft_username_done = true) := by
  unfold microsoftStep
  rcases inj with b | _
  · cases b <;> by_cases hd : s.microsoft_username_done <;>
      by_cases he : e <;> by_cases hp : s.microsoft_prompted <;>
      by_cases hi : s.microsoft_inspect_prompted <;>
      simp_all
  · by_cases hd : s.microsoft_username_done <;>
      by_cases he : e <;> by_cases hp : s.microsoft_prompted <;>
      by_cases hi : s.microsoft_inspect_prompted <;>
      simp_all

theorem urlChangeCheck_fields (now : Nat) (s : LoopState) (url : List Char) :
    (urlChangeCheck now s url).atlassian_username_done = s.atlassian_username_done ∧
    (urlChangeCheck now s url).account_continue_done = s.account_continue_done ∧
    (urlChangeCheck now s url).microsoft_username_done = s.microsoft_username_done := by
  unfold urlChangeCheck
  split_ifs <;> simp

theorem doneFlagsPreserved_some (s s₂ : LoopState)
    (h1 : s.atlassian_username_done = true → s₂.atlassian_username_done = true)
    (h2 : s.account_continue_done = true → s₂.account_continue_done = true)
    (h3 : s.microsoft_username_done = true → s₂.microsoft_username_done = true) :
    doneFlagsPreserved s (some s₂) = true := by
  unfold doneFlagsPreserved
  cases ha : s.atlassian_username_done <;>
    cases hb : s.account_continue_done <;>
    cases hc : s.microsoft_username_done <;>
    simp_all

theorem injectionPhase_props (cfg : Cfg) (now : Nat) (s : LoopState)
    (url : List Char) (inj : InjResult) :
    (injectionPhase cfg now s url inj).2.1.current_url = s.current_url ∧
    (injectionPhase cfg now s url inj).2.1.start_time = s.start_time ∧
    (s.atlassian_username_done = true →
      (injectionPhase cfg now s url inj).2.1.atlassian_username_done = true) ∧
    (s.account_continue_done = true →
      (injectionPhase cfg now s url inj).2.1.account_continue_done = true) ∧
    (s.microsoft_username_done = true →
      (injectionPhase cfg now s url inj).2.1.microsoft_username_done = true) ∧
    (s.atlassian_username_done = true →
      Event.invoked .atlassian now ∉ (injectionPhase cfg now s url inj).2.2) ∧
    (s.account_continue_done = true →
      Event.invoked .account now ∉ (injectionPhase cfg now s url inj).2.2) ∧
    (s.microsoft_username_done = true →
      Event.invoked .microsoft now ∉ (injectionPhase cfg now s url inj).2.2) := by
  unfold injectionPhase
  rcases hu : cfg.username with _ | user
  · simp
  · cases hc : classifyUrl url
    case atlassianLogin =>
      obtain ⟨a1, a2, a3, a4, a5, a6, -, -⟩ := atlassianLoginStep_props cfg.stepEnabled now s inj
      refine ⟨a4, a5, ?_, fun h => by rw [a2]; exact h, fun h => by rw [a3]; exact h, ?_, ?_, ?_⟩
      · intro h; rw [a1 h]; exact h
      · intro h hmem; rw [a1 h] at hmem; simp at hmem
      · intro _ hmem
        rcases a6 _ hmem with h | h <;> simp_all
      · intro _ hmem
        rcases a6 _ hmem with h | h <;> simp_all
    case atlassianAccountSelect =>
      obtain ⟨a1, a2, a3, a4, a5, a6, -, -⟩ := accountSelectStep_props cfg.stepEnabled now s inj
      refine ⟨a4, a5, fun h => by rw [a2]; exact h, ?_, fun h => by rw [a3]; exact h, ?_, ?_, ?_⟩
      · intro h; rw [a1 h]; exact h
      · intro _ hmem
        rcases a6 _ hmem with h | h <;> simp_all
      · intro h hmem; rw [a1 h] at hmem; simp at hmem
      · intro _ hmem
        rcases a6 _ hmem with h | h <;> simp_all
    case microsoftLogin =>
      obtain ⟨m1, m2, m3, m4, m5, m6, m7, m8, -, -⟩ := microsoftStep_props cfg.stepEnabled now s inj
      refine ⟨m5, m6, fun h => by rw [m2]; exact h, fun h => by rw [m3]; exact h, m4, ?_, ?_, ?_⟩
      · intro _ hmem
        rcases m7 _ hmem with h | h <;> simp_all
      · intro _ hmem
        rcases m7 _ hmem with h | h <;> simp_all
      · intro h hmem
        have := m8 h _ hmem
        simp_all
    case other => simp

/-- Claim C1 (amended): on a poll tick whose URL differs from the
previously recorded URL, the driver resets the inactivity timer and
clears the four prompt-shown flags only; the three per-state done flags
survive every tick (they are never cleared), so once a login step is done
its credential injector is not invoked again within the same
`wait_for_ticket_page` call even when the same login state recurs after a
URL change — see the counterexample run. -/
theorem wait_done_flags_persist (cfg : Cfg) (now : Nat) (s : LoopState) (t : Tick) :
    doneFlagsPreserved s (tickStep cfg now s t).1 = true ∧
    (s.atlassian_username_done = true →
      Event.invoked .atlassian now ∉ (tickStep cfg now s t).2) ∧
    (s.account_continue_done = true →
      Event.invoked .account now ∉ (tickStep cfg now s t).2) ∧
    (s.microsoft_username_done = true →
      Event.invoked .microsoft now ∉ (tickStep cfg now s t).2) ∧
    (t.url ≠ s.current_url →
      urlChangeCheck now s t.url =
        { s with
          current_url := t.url
          start_time := now
          atlassian_prompted := false
          account_prompted := false
          microsoft_prompted := false
          microsoft_inspect_prompted := false }) := by
  have hchange : t.url ≠ s.current_url →
      urlChangeCheck now s t.url =
        { s with
          current_url := t.url
          start_time := now
          atlassian_prompted := false
          account_prompted := false
          microsoft_prompted := false
          microsoft_inspect_prompted := false } := by
    intro h
    unfold urlChangeCheck
    rw [if_neg h]
  unfold tickStep
  by_cases htgt : is_on_ticket_page t.url cfg.ticket_id = true
  · rw [if_pos htgt]
    refine ⟨rfl, ?_, ?_, ?_, hchange⟩ <;>
      · intro _ hmem
        split at hmem <;> simp_all
  · rw [if_neg htgt]
    obtain ⟨p1, p2, p3, p4, p5, p6, p7, p8⟩ :=
      injectionPhase_props cfg now s t.url t.inj
    obtain ⟨u1, u2, u3⟩ :=
      urlChangeCheck_fields now (injectionPhase cfg now s t.url t.inj).2.1 t.url
    by_cases hcont : (injectionPhase cfg now s t.url t.inj).1 = true
    · rw [if_pos hcont]
      exact ⟨doneFlagsPreserved_some _ _ p3 p4 p5, p6, p7, p8, hchange⟩
    · rw [if_neg hcont]
      refine ⟨doneFlagsPreserved_some _ _ ?_ ?_ ?_, p6, p7, p8, hchange⟩
      · intro h; rw [u1]; exact p3 h
      · intro h; rw [u2]; exact p4 h
      · intro h; rw [u3]; exact p5 h

/-- Claim C1, witness: a tick on the Atlassian login URL with the
Atlassian step already done and a changed URL keeps the done flag set and
invokes no injector. -/
theorem wait_done_flags_persist_witness :
    doneFlagsPreserved
      { LoopState.init plainUrl with atlassian_username_done := true }
      (tickStep cfgUser 3
        { LoopState.init plainUrl with atlassian_username_done := true }
        ⟨atlLoginUrl, .ok true⟩).1 = true ∧
    Event.invoked .atlassian 3 ∉
      (tickStep cfgUser 3
        { LoopState.init plainUrl with atlassian_username_done := true }
        ⟨atlLoginUrl, .ok true⟩).2 :=
  ⟨(wait_done_flags_persist cfgUser 3 _ _).1,
    (wait_done_flags_persist cfgUser 3 _ _).2.1 rfl⟩

/-- Claim C1, counterexample: on the script Atlassian-login, unrelated
URL, Atlassian-login again (twice), ticket page — where the Atlassian
login classification recurs after intervening URL changes (ticks 2 and 3
both change the observed URL) — the injector runs exactly once (at
tick 1) and never again, at neither tick 3 nor tick 4: no URL change
cleared the done flag. -/
theorem wait_done_flags_counterexample :
    (wait_for_ticket_page cfgUser plainUrl
        [⟨atlLoginUrl, .ok true⟩, ⟨otherUrl, .ok false⟩,
         ⟨atlLoginUrl, .ok true⟩, ⟨atlLoginUrl, .ok true⟩,
         ⟨ticketUrl, .ok false⟩]).result = some true ∧
    invokedEvents
      (wait_for_ticket_page cfgUser plainUrl
        [⟨atlLoginUrl, .ok true⟩, ⟨otherUrl, .ok false⟩,
         ⟨atlLoginUrl, .ok true⟩, ⟨atlLoginUrl, .ok true⟩,
         ⟨ticketUrl, .ok false⟩]).events =
      [Event.invoked .atlassian 1] ∧
    classifyUrl atlLoginUrl = .atlassianLogin ∧
    atlLoginUrl ≠ otherUrl ∧ atlLoginUrl ≠ plainUrl := by
  refine ⟨by decide, by decide, rfl, by decide, by decide⟩

theorem tickStep_none_iff (cfg : Cfg) (now : Nat) (s : LoopState) (t : Tick) :
    (tickStep cfg now s t).1 = none ↔
      is_on_ticket_page t.url cfg.ticket_id = true := by
  constructor
  · intro h
    by_contra hcontra
    unfold tickStep at h
    rw [if_neg hcontra] at h
    rcases hr : injectionPhase cfg now s t.url t.inj with ⟨cont, s₂, evs⟩
    rw [hr] at h
    cases cont <;> simp at h
  · intro h
    unfold tickStep
    rw [if_pos h]

/-- Claim C5 (amended): when a credential injector returns `Ok(true)` on a
not-yet-done login state, `wait_for_ticket_page` marks that done flag and
executes `continue`, skipping the bottom-of-loop URL-change bookkeeping
for that iteration (recorded URL and timer are left untouched); the next
URL read then happens only after the poll-interval sleep at the top of
the next iteration, because the sleep is the first statement of the loop
body — see the counterexample trace. -/
theorem injector_ok_true_continues (cfg : Cfg) (now : Nat) (s : LoopState) (t : Tick)
    (hok : t.inj = .ok true)
    (hnt : is_on_ticket_page t.url cfg.ticket_id = false)
    (hu : cfg.username.isSome = true) :
    (classifyUrl t.url = .atlassianLogin → s.atlassian_username_done = false →
      (tickStep cfg now s t).1.map LoopState.atlassian_username_done = some true ∧
      (tickStep cfg now s t).1.map LoopState.current_url = some s.current_url ∧
      (tickStep cfg now s t).1.map LoopState.start_time = some s.start_time) ∧
    (classifyUrl t.url = .atlassianAccountSelect → s.account_continue_done = false →
      (tickStep cfg now s t).1.map LoopState.account_continue_done = some true ∧
      (tickStep cfg now s t).1.map LoopState.current_url = some s.current_url ∧
      (tickStep cfg now s t).1.map LoopState.start_time = some s.start_time) ∧
    (classifyUrl t.url = .microsoftLogin → s.microsoft_username_done = false →
      (tickStep cfg now s t).1.map LoopState.microsoft_username_done = some true ∧
      (tickStep cfg now s t).1.map LoopState.current_url = some s.current_url ∧
      (tickStep cfg now s t).1.map LoopState.start_time = some s.start_time) := by
  have htgt : ¬ (is_on_ticket_page t.url cfg.ticket_id = true) := by simp [hnt]
  rcases hu2 : cfg.username with _ | user
  · rw [hu2] at hu
    simp at hu
  refine ⟨?_, ?_, ?_⟩
  · intro hc hd
    obtain ⟨-, -, -, a4, a5, -, a7, -⟩ :=
      atlassianLoginStep_props cfg.stepEnabled now s t.inj
    obtain ⟨hr1, hr2⟩ := a7 hd hok
    simp only [tickStep, injectionPhase, hu2, hc, if_neg htgt]
    rw [if_pos hr1]
    simp [hr2, a4, a5]
  · intro hc hd
    obtain ⟨-, -, -, a4, a5, -, a7, -⟩ :=
      accountSelectStep_props cfg.stepEnabled now s t.inj
    obtain ⟨hr1, hr2⟩ := a7 hd hok
    simp only [tickStep, injectionPhase, hu2, hc, if_neg htgt]
    rw [if_pos hr1]
    simp [hr2, a4, a5]
  · intro hc hd
    obtain ⟨-, -, -, -, m5, m6, -, -, m9, -⟩ :=
      microsoftStep_props cfg.stepEnabled now s t.inj
    obtain ⟨hr1, hr2⟩ := m9 hd hok
    simp only [tickStep, injectionPhase, hu2, hc, if_neg htgt]
    rw [if_pos hr1]
    simp [hr2, m5, m6]

/-- Claim C5, witness: a fresh state on the Atlassian login URL with the
injector answering `Ok(true)` marks the done flag and leaves the recorded
URL and timer of the state unchanged. -/
theorem injector_ok_true_continues_witness :
    (tickStep cfgUser 1 (LoopState.init plainUrl)
        ⟨atlLoginUrl, .ok true⟩).1.map LoopState.atlassian_username_done = some true ∧
    (tickStep cfgUser 1 (LoopState.init plainUrl)
        ⟨atlLoginUrl, .ok true⟩).1.map LoopState.current_url = some plainUrl ∧
    (tickStep cfgUser 1 (LoopState.init plainUrl)
        ⟨atlLoginUrl, .ok true⟩).1.map LoopState.start_time = some 0 :=
  (injector_ok_true_continues cfgUser 1 (LoopState.init plainUrl)
    ⟨atlLoginUrl, .ok true⟩ rfl (by decide) rfl).1 rfl rfl

/-- Claim C5, counterexample: after the injector succeeds at tick 1, the
full event trace of the run shows a sleep (event index 3) strictly
between the injector invocation (index 2) and the next URL read
(index 4): the loop does not read the next URL right away without
sleeping the poll interval again. -/
theorem injector_ok_true_sleeps_again_counterexample :
    (wait_for_ticket_page cfgUser plainUrl
        [⟨atlLoginUrl, .ok true⟩, ⟨ticketUrl, .ok false⟩]).events =
      [Event.slept 1, Event.urlRead 1 atlLoginUrl, Event.invoked .atlassian 1,
       Event.slept 2, Event.urlRead 2 ticketUrl] ∧
    (wait_for_ticket_page cfgUser plainUrl
        [⟨atlLoginUrl, .ok true⟩, ⟨ticketUrl, .ok false⟩]).events.get? 2 =
      some (Event.invoked .atlassian 1) ∧
    (wait_for_ticket_page cfgUser plainUrl
        [⟨atlLoginUrl, .ok true⟩, ⟨ticketUrl, .ok false⟩]).events.get? 3 =
      some (Event.slept 2) ∧
    (wait_for_ticket_page cfgUser plainUrl
        [⟨atlLoginUrl, .ok true⟩, ⟨ticketUrl, .ok false⟩]).events.get? 4 =
      some (Event.urlRead 2 ticketUrl) := by
  refine ⟨by decide, by decide, by decide, by decide⟩

/-- Claim C7: when a credential injector returns `Err` on a not-yet-done
login state, the driver marks that done flag (so the step is not retried)
and keeps polling: the iteration produces a next state rather than a
success return, and the injector error is never the result of
`wait_for_ticket_page` itself — in this embedding the loop result is
always a boolean verdict, never an injector error. -/
theorem injector_err_absorbed (cfg : Cfg) (now : Nat) (s : LoopState) (t : Tick)
    (herr : t.inj = .err)
    (hnt : is_on_ticket_page t.url cfg.ticket_id = false)
    (hu : cfg.username.isSome = true) :
    (tickStep cfg now s t).1.isSome = true ∧
    (classifyUrl t.url = .atlassianLogin → s.atlassian_username_done = false →
      (tickStep cfg now s t).1.map LoopState.atlassian_username_done = some true) ∧
    (classifyUrl t.url = .atlassianAccountSelect → s.account_continue_done = false →
      (tickStep cfg now s t).1.map LoopState.account_continue_done = some true) ∧
    (classifyUrl t.url = .microsoftLogin → s.microsoft_username_done = false →
      (tickStep cfg now s t).1.map LoopState.microsoft_username_done = some true) := by
  have htgt : ¬ (is_on_ticket_page t.url cfg.ticket_id = true) := by simp [hnt]
  rcases hu2 : cfg.username with _ | user
  · rw [hu2] at hu
    simp at hu
  have hsome : (tickStep cfg now s t).1.isSome = true := by
    rcases ho : (tickStep cfg now s t).1 with _ | s₂
    · exact absurd ((tickStep_none_iff cfg now s t).mp ho) htgt
    · rfl
  refine ⟨hsome, ?_, ?_, ?_⟩
  · intro hc hd
    obtain ⟨-, -, -, -, -, -, -, a8⟩ :=
      atlassianLoginStep_props cfg.stepEnabled now s t.inj
    obtain ⟨hr1, hr2⟩ := a8 hd herr
    obtain ⟨u1, -, -⟩ :=
      urlChangeCheck_fields now (atlassianLoginStep cfg.stepEnabled now s t.inj).2.1 t.url
    simp only [tickStep, injectionPhase, hu2, hc, if_neg htgt]
    rw [if_neg (by rw [hr1]; exact Bool.false_ne_true)]
    simp [u1, hr2]
  · intro hc hd
    obtain ⟨-, -, -, -, -, -, -, a8⟩ :=
      accountSelectStep_props cfg.stepEnabled now s t.inj
    obtain ⟨hr1, hr2⟩ := a8 hd herr
    obtain ⟨-, u2, -⟩ :=
      urlChangeCheck_fields now (accountSelectStep cfg.stepEnabled now s t.inj).2.1 t.url
    simp only [tickStep, injectionPhase, hu2, hc, if_neg htgt]
    rw [if_neg (by rw [hr1]; exact Bool.false_ne_true)]
    simp [u2, hr2]
  · intro hc hd
    obtain ⟨-, -, -, -, -, -, -, -, -, m10⟩ :=
      microsoftStep_props cfg.stepEnabled now s t.inj
    obtain ⟨hr1, hr2⟩ := m10 hd herr
    obtain ⟨-, -, u3⟩ :=
      urlChangeCheck_fields now (microsoftStep cfg.stepEnabled now s t.inj).2.1 t.url
    simp only [tickStep, injectionPhase, hu2, hc, if_neg htgt]
    rw [if_neg (by rw [hr1]; exact Bool.false_ne_true)]
    simp [u3, hr2]

/-- Claim C7, witness: an injector error on the Atlassian login URL marks
the Atlassian done flag and yields a next state (the loop keeps polling)
rather than any kind of abort. -/
theorem injector_err_absorbed_witness :
    (tickStep cfgUser 1 (LoopState.init plainUrl)
        ⟨atlLoginUrl, .err⟩).1.isSome = true ∧
    (tickStep cfgUser 1 (LoopState.init plainUrl)
        ⟨atlLoginUrl, .err⟩).1.map LoopState.atlassian_username_done = some true :=
  ⟨(injector_err_absorbed cfgUser 1 (LoopState.init plainUrl)
      ⟨atlLoginUrl, .err⟩ rfl (by decide) rfl).1,
   (injector_err_absorbed cfgUser 1 (LoopState.init plainUrl)
      ⟨atlLoginUrl, .err⟩ rfl (by decide) rfl).2.1 rfl rfl⟩

theorem tickStep_username_none (cfg : Cfg) (now : Nat) (s : LoopState) (t : Tick)
    (hU : cfg.username = none)
    (hnt : is_on_ticket_page t.url cfg.ticket_id = false) :
    tickStep cfg now s t = (some (urlChangeCheck now s t.url), []) := by
  unfold tickStep injectionPhase
  rw [if_neg (by simp [hnt]), hU]
  rfl

theorem runLoop_of_goodScript (cfg : Cfg) (hU : cfg.username = none)
    (ticks : List Tick) :
    ∀ (now : Nat) (s : LoopState),
      goodScript cfg s.current_url now s.start_time ticks = true →
      (runLoop cfg ticks now s).result = some true := by
  induction ticks with
  | nil =>
      intro now s h
      simp [goodScript] at h
  | cons t rest ih =>
      intro now s h
      unfold goodScript at h
      rw [Bool.and_eq_true] at h
      obtain ⟨h1, h2⟩ := h
      have hlt : now - s.start_time < cfg.timeout := of_decide_eq_true h1
      unfold runLoop
      rw [if_pos hlt]
      rcases hts : tickStep cfg (now + 1) s t with ⟨o, evs⟩
      cases hh : is_on_ticket_page t.url cfg.ticket_id
      case true =>
        have hnone := (tickStep_none_iff cfg (now + 1) s t).mpr hh
        rw [hts] at hnone
        simp only at hnone
        subst hnone
        rfl
      case false =>
        have heq := tickStep_username_none cfg (now + 1) s t hU hh
        rw [hts] at heq
        rw [Prod.mk.injEq] at heq
        obtain ⟨ho, he⟩ := heq
        subst ho
        show (runLoop cfg rest (now + 1) (urlChangeCheck (now + 1) s t.url)).result = some true
        rw [Bool.or_eq_true] at h2
        rcases h2 with h2 | h2
        · rw [hh] at h2
          exact absurd h2 (by simp)
        · by_cases hurl : t.url = s.current_url
          · have hcc : urlChangeCheck (now + 1) s t.url = s := by
              unfold urlChangeCheck
              rw [if_pos hurl]
            rw [if_pos hurl] at h2
            rw [hcc]
            exact ih (now + 1) s h2
          · have hcc1 : (urlChangeCheck (now + 1) s t.url).current_url = t.url := by
              unfold urlChangeCheck
              rw [if_neg hurl]
            have hcc2 : (urlChangeCheck (now + 1) s t.url).start_time = now + 1 := by
              unfold urlChangeCheck
              rw [if_neg hurl]
            rw [if_neg hurl] at h2
            apply ih (now + 1)
            rw [hcc1, hcc2]
            exact h2

/-- Claim C2: the polling loop resets its timer start to the current
instant on a tick whose URL differs from the previously recorded URL, and
it fails only once time since the last reset reaches the timeout; hence
on any scripted URL sequence (here in the pure URL-polling mode, no
username configured) in which every individual change — and finally the
target page — arrives within the inactivity timeout of the previous
change, the loop reaches the target and succeeds, even when the script is
longer than the timeout in total. -/
theorem inactivity_timeout_resets_on_url_change (cfg : Cfg) (ticks : List Tick)
    (now : Nat) (s : LoopState) (t : Tick) (hU : cfg.username = none) :
    (is_on_ticket_page t.url cfg.ticket_id = false → t.url ≠ s.current_url →
      (tickStep cfg now s t).1 = some (urlChangeCheck now s t.url) ∧
      (urlChangeCheck now s t.url).start_time = now) ∧
    (goodScript cfg s.current_url now s.start_time ticks = true →
      (runLoop cfg ticks now s).result = some true) := by
  constructor
  · intro hnt hne
    rw [tickStep_username_none cfg now s t hU hnt]
    refine ⟨rfl, ?_⟩
    unfold urlChangeCheck
    rw [if_neg hne]
  · exact runLoop_of_goodScript cfg hU ticks now s

/-- Claim C2, witness: the scripted sequence A, A, A, B, B, B, target
with inactivity timeout 4 succeeds although its total length 7 exceeds
the timeout, because each change (A to B at tick 4, B to target at
tick 7) arrives within 4 ticks of the previous reset; and at the tick
where the URL changes from A to B the timer start is reset to that tick. -/
theorem inactivity_timeout_resets_on_url_change_witness :
    goodScript cfgNoUser plainUrl 0 0 c2script = true ∧
    (runLoop cfgNoUser c2script 0 (LoopState.init plainUrl)).result = some true ∧
    (tickStep cfgNoUser 4 (LoopState.init plainUrl) ⟨otherUrl, .ok false⟩).1 =
      some (urlChangeCheck 4 (LoopState.init plainUrl) otherUrl) ∧
    (urlChangeCheck 4 (LoopState.init plainUrl) otherUrl).start_time = 4 ∧
    c2script.length = 7 ∧ cfgNoUser.timeout = 4 := by
  refine ⟨by decide, ?_, ?_, ?_, rfl, rfl⟩
  · exact (inactivity_timeout_resets_on_url_change cfgNoUser c2script 0
      (LoopState.init plainUrl) ⟨otherUrl, .ok false⟩ rfl).2 (by decide)
  · exact ((inactivity_timeout_resets_on_url_change cfgNoUser c2script 4
      (LoopState.init plainUrl) ⟨otherUrl, .ok false⟩ rfl).1 (by decide) (by decide)).1
  · exact ((inactivity_timeout_resets_on_url_change cfgNoUser c2script 4
      (LoopState.init plainUrl) ⟨otherUrl, .ok false⟩ rfl).1 (by decide) (by decide)).2

theorem runLoop_no_target (cfg : Cfg) (ticks : List Tick) :
    ∀ (now : Nat) (s : LoopState),
      (∀ t ∈ ticks, is_on_ticket_page t.url cfg.ticket_id = false) →
      (runLoop cfg ticks now s).result ≠ some true := by
  induction ticks with
  | nil =>
      intro now s _
      unfold runLoop
      split_ifs <;> simp
  | cons t rest ih =>
      intro now s h
      unfold runLoop
      split_ifs with hlt
      · rcases hts : tickStep cfg (now + 1) s t with ⟨o, evs⟩
        cases o with
        | none =>
            have hnone : (tickStep cfg (now + 1) s t).1 = none := by
              rw [hts]
            have := (tickStep_none_iff cfg (now + 1) s t).mp hnone
            rw [h t (List.mem_cons_self t rest)] at this
            exact absurd this (by simp)
        | some s₂ =>
            show (runLoop cfg rest (now + 1) s₂).result ≠ some true
            exact ih (now + 1) s₂ (fun u hu => h u (List.mem_cons_of_mem t hu))
      · simp

/-- Claim C4: if the target ticket page is never among the observed URLs,
the polling loop can never return success; whenever it terminates on its
own it yields the boolean failure `Ok(false)`, not an error; and
`complete_risk_assessment` converts that boolean failure into an error
whose message contains both the ticket id and the currently observed URL
as substrings. -/
theorem login_timeout_boolean_failure (cfg : Cfg) (ticks : List Tick)
    (now : Nat) (s : LoopState) (u : List Char)
    (h : ∀ t ∈ ticks, is_on_ticket_page t.url cfg.ticket_id = false) :
    (runLoop cfg ticks now s).result ≠ some true ∧
    ((runLoop cfg ticks now s).result = some false ∨
      (runLoop cfg ticks now s).result = none) ∧
    complete_risk_assessment_check cfg.ticket_id false u =
      .error (ticketPageError cfg.ticket_id u) ∧
    cfg.ticket_id <:+: ticketPageError cfg.ticket_id u ∧
    u <:+: ticketPageError cfg.ticket_id u := by
  have h1 := runLoop_no_target cfg ticks now s h
  refine ⟨h1, ?_, rfl, ?_, ?_⟩
  · rcases hr : (runLoop cfg ticks now s).result with _ | b
    · right
      rfl
    · cases b
      · left
        rfl
      · exact absurd hr h1
  · refine ⟨"Could not verify we".toList ++ squote ++
      "re on the correct ticket page for ".toList,
      ".\nCurrent URL: ".toList ++ u ++
      "\nThis may be due to a login page or other redirect.\nPlease try again after ensuring you".toList ++
      squote ++ "re logged in.".toList, ?_⟩
    simp [ticketPageError, List.append_assoc]
  · refine ⟨"Could not verify we".toList ++ squote ++
      "re on the correct ticket page for ".toList ++ cfg.ticket_id ++
      ".\nCurrent URL: ".toList,
      "\nThis may be due to a login page or other redirect.\nPlease try again after ensuring you".toList ++
      squote ++ "re logged in.".toList, ?_⟩
    simp [ticketPageError, List.append_assoc]

/-- Claim C4, witness: a script that never shows the ticket page exhausts
the timeout, the loop answers the boolean `some false` (no exception),
and the constructed error message contains the ticket id and the URL. -/
theorem login_timeout_boolean_failure_witness :
    (runLoop cfgNoUser
        [⟨plainUrl, .ok false⟩, ⟨plainUrl, .ok false⟩, ⟨plainUrl, .ok false⟩,
         ⟨plainUrl, .ok false⟩, ⟨plainUrl, .ok false⟩]
        0 (LoopState.init plainUrl)).result ≠ some true ∧
    ((runLoop cfgNoUser
        [⟨plainUrl, .ok false⟩, ⟨plainUrl, .ok false⟩, ⟨plainUrl, .ok false⟩,
         ⟨plainUrl, .ok false⟩, ⟨plainUrl, .ok false⟩]
        0 (LoopState.init plainUrl)).result = some false ∨
      (runLoop cfgNoUser
        [⟨plainUrl, .ok false⟩, ⟨plainUrl, .ok false⟩, ⟨plainUrl, .ok false⟩,
         ⟨plainUrl, .ok false⟩, ⟨plainUrl, .ok false⟩]
        0 (LoopState.init plainUrl)).result = none) ∧
    complete_risk_assessment_check cfgNoUser.ticket_id false plainUrl =
      .error (ticketPageError cfgNoUser.ticket_id plainUrl) ∧
    cfgNoUser.ticket_id <:+: ticketPageError cfgNoUser.ticket_id plainUrl ∧
    plainUrl <:+: ticketPageError cfgNoUser.ticket_id plainUrl :=
  login_timeout_boolean_failure cfgNoUser
    [⟨plainUrl, .ok false⟩, ⟨plainUrl, .ok false⟩, ⟨plainUrl, .ok false⟩,
     ⟨plainUrl, .ok false⟩, ⟨plainUrl, .ok false⟩]
    0 (LoopState.init plainUrl) plainUrl (by decide)

theorem runLoop_username_none_no_injection (cfg : Cfg) (hU : cfg.username = none)
    (ticks : List Tick) :
    ∀ (now : Nat) (s : LoopState),
      invokedEvents (runLoop cfg ticks now s).events = [] := by
  induction ticks with
  | nil =>
      intro now s
      unfold runLoop
      split_ifs <;> rfl
  | cons t rest ih =>
      intro now s
      unfold runLoop
      split_ifs with hlt
      · rcases hts : tickStep cfg (now + 1) s t with ⟨o, evs⟩
        cases hh : is_on_ticket_page t.url cfg.ticket_id
        · have heq := tickStep_username_none cfg (now + 1) s t hU hh
          rw [hts] at heq
          rw [Prod.mk.injEq] at heq
          obtain ⟨ho, he⟩ := heq
          subst ho
          subst he
          have hrest := ih (now + 1) (urlChangeCheck (now + 1) s t.url)
          simp only [invokedEvents] at hrest ⊢
          simp [hrest]
        · have hnone := (tickStep_none_iff cfg (now + 1) s t).mpr hh
          rw [hts] at hnone
          simp only at hnone
          subst hnone
          have hevs : tickStep cfg (now + 1) s t =
              (none, if cfg.stepEnabled then [Event.paused] else []) := by
            unfold tickStep
            rw [if_pos hh]
          rw [hts] at hevs
          rw [Prod.mk.injEq] at hevs
          obtain ⟨-, he⟩ := hevs
          subst he
          cases hse : cfg.stepEnabled <;> simp [invokedEvents]
      · rfl

/-- Claim C10: `complete_risk_assessment` trims the configured username
and treats a whitespace-only result as absent: `login_username` yields
`None`, and a `wait_for_ticket_page` run so configured never enters a
credential-injection branch — it evaluates no injection script on any
tick of any script, only sleeping, reading URLs and possibly pausing
until the ticket page appears or the inactivity timeout elapses. -/
theorem empty_username_no_injection (configured ticket_id : List Char)
    (tmo : Nat) (se : Bool) (initialUrl : List Char) (ticks : List Tick)
    (h : strTrim configured = []) :
    login_username configured = none ∧
    invokedEvents (wait_for_ticket_page ⟨ticket_id, tmo, login_username configured, se⟩
      initialUrl ticks).events = [] := by
  have hnone : login_username configured = none := by
    unfold login_username
    rw [h]
    rfl
  exact ⟨hnone, runLoop_username_none_no_injection _ hnone ticks 0 _⟩

/-- Claim C10, witness: a whitespace-only configured username is treated
as absent, and even a script sitting on the Atlassian login page with a
willing injector sees no injector invocation. -/
theorem empty_username_no_injection_witness :
    login_username " \t ".toList = none ∧
    invokedEvents (wait_for_ticket_page
      ⟨"T-1".toList, 4, login_username " \t ".toList, false⟩ plainUrl
      [⟨atlLoginUrl, .ok true⟩, ⟨atlLoginUrl, .ok true⟩]).events = [] :=
  empty_username_no_injection " \t ".toList "T-1".toList 4 false plainUrl
    [⟨atlLoginUrl, .ok true⟩, ⟨atlLoginUrl, .ok true⟩] (by decide)
